import Mathlib

/-!
Verification development for the BasedPlanning floor-plan editor core
(src/app/page.tsx).  Coordinates are centimetres; the TypeScript number
arithmetic used by the snap engine is modelled with exact rationals.
Rotation angles are modelled as integers, with the TypeScript remainder
operator modelled by truncated remainder (Int.tmod), which agrees with it
on all integer inputs.
-/

namespace BasedPlanning

/-- Per-side wall thickness override of a room (each side optional,
falling back to the global default), from the Room model used by
getWallThicknessCm (page.tsx 2119-2126). -/
structure WallThicknessOverride where
  north : Option ℚ := none
  south : Option ℚ := none
  east : Option ℚ := none
  west : Option ℚ := none
deriving DecidableEq, Repr

/-- Room record as used by the snap engine: id, inner top-left position,
inner size, optional per-side wall thickness. -/
structure Room where
  id : String
  xCm : ℚ
  yCm : ℚ
  widthCm : ℚ
  heightCm : ℚ
  wallThickness : Option WallThicknessOverride := none
deriving DecidableEq, Repr

/-- Resolved wall thickness for all four sides. -/
structure WallSides where
  north : ℚ
  south : ℚ
  east : ℚ
  west : ℚ
deriving DecidableEq, Repr

/-- page.tsx 2104: snap tolerance for outer-edge alignment. -/
def SNAP_TOLERANCE_CM : ℚ := 2

/-- page.tsx 2105: larger tolerance for wall-overlap snapping. -/
def WALL_SNAP_TOLERANCE_CM : ℚ := 15

/-- page.tsx 2119-2126: per-side thickness, own override or global default. -/
def getWallThicknessCm (room : Room) (globalWallThicknessCm : ℚ) : WallSides where
  north := ((room.wallThickness.bind (fun t => t.north)).getD globalWallThicknessCm)
  south := ((room.wallThickness.bind (fun t => t.south)).getD globalWallThicknessCm)
  east := ((room.wallThickness.bind (fun t => t.east)).getD globalWallThicknessCm)
  west := ((room.wallThickness.bind (fun t => t.west)).getD globalWallThicknessCm)

/-- Axis-aligned bounds rectangle. -/
structure BoundsCm where
  left : ℚ
  right : ℚ
  top : ℚ
  bottom : ℚ
deriving DecidableEq, Repr

/-- page.tsx 2131-2142: inner bounds of a room (the floor area, not
including walls) at a hypothetical position (xCm, yCm). -/
def innerBoundsCm (room : Room) (xCm yCm : ℚ) : BoundsCm where
  left := xCm
  right := xCm + room.widthCm
  top := yCm
  bottom := yCm + room.heightCm

/-- Outer bounds of a room together with the resolved per-side thickness. -/
structure OuterBounds where
  left : ℚ
  right : ℚ
  top : ℚ
  bottom : ℚ
  w : WallSides
deriving DecidableEq, Repr

/-- page.tsx 2147-2161: outer bounds of a room (including walls) at a
hypothetical position. -/
def outerBoundsCm (room : Room) (globalWallThicknessCm : ℚ) (xCm yCm : ℚ) : OuterBounds :=
  let w := getWallThicknessCm room globalWallThicknessCm
  { left := xCm - w.west
    right := xCm + room.widthCm + w.east
    top := yCm - w.north
    bottom := yCm + room.heightCm + w.south
    w := w }

/-- page.tsx 2107-2115: corrected position plus which axes snapped and
optional guide-line coordinates. -/
structure SnapResult where
  xCm : ℚ
  yCm : ℚ
  snappedX : Bool
  snappedY : Bool
  xGuideCm : Option ℚ
  yGuideCm : Option ℚ
deriving DecidableEq, Repr

/-- One axis of the mutable loop state of calculateSnap:
snappedXCm / snappedX / xGuideCm (resp. the Y triple). -/
structure AxisAcc where
  pos : ℚ
  snapped : Bool
  guide : Option ℚ
deriving DecidableEq, Repr

/-- page.tsx 2195-2243, the SNAP X block of one loop iteration of
calculateSnap: guarded by the snapped flag, the four candidates are tested
in source order (wall overlap outer-right to inner-left, wall overlap
outer-left to inner-right, alignment outer-left to outer-left, alignment
outer-right to outer-right); the first hit wins. -/
def snapStepRoomX (movingRoom : Room) (globalWallThicknessCm : ℚ) (movingOuter : OuterBounds)
    (acc : AxisAcc) (other : Room) : AxisAcc :=
  if acc.snapped then acc else
  let otherInner := innerBoundsCm other other.xCm other.yCm
  let otherOuter := outerBoundsCm other globalWallThicknessCm other.xCm other.yCm
  let movingWalls := movingOuter.w
  if |movingOuter.right - otherInner.left| ≤ WALL_SNAP_TOLERANCE_CM then
    { pos := otherInner.left - movingRoom.widthCm - movingWalls.east
      snapped := true
      guide := some otherInner.left }
  else if |movingOuter.left - otherInner.right| ≤ WALL_SNAP_TOLERANCE_CM then
    { pos := otherInner.right + movingWalls.west
      snapped := true
      guide := some otherInner.right }
  else if |movingOuter.left - otherOuter.left| ≤ SNAP_TOLERANCE_CM then
    { pos := otherOuter.left + movingWalls.west
      snapped := true
      guide := some otherOuter.left }
  else if |movingOuter.right - otherOuter.right| ≤ SNAP_TOLERANCE_CM then
    { pos := otherOuter.right - movingRoom.widthCm - movingWalls.east
      snapped := true
      guide := some otherOuter.right }
  else acc

/-- page.tsx 2245-2286, the SNAP Y block of one loop iteration of
calculateSnap (wall overlap outer-bottom to inner-top, wall overlap
outer-top to inner-bottom, alignment outer-top to outer-top, alignment
outer-bottom to outer-bottom). -/
def snapStepRoomY (movingRoom : Room) (globalWallThicknessCm : ℚ) (movingOuter : OuterBounds)
    (acc : AxisAcc) (other : Room) : AxisAcc :=
  if acc.snapped then acc else
  let otherInner := innerBoundsCm other other.xCm other.yCm
  let otherOuter := outerBoundsCm other globalWallThicknessCm other.xCm other.yCm
  let movingWalls := movingOuter.w
  if |movingOuter.bottom - otherInner.top| ≤ WALL_SNAP_TOLERANCE_CM then
    { pos := otherInner.top - movingRoom.heightCm - movingWalls.south
      snapped := true
      guide := some otherInner.top }
  else if |movingOuter.top - otherInner.bottom| ≤ WALL_SNAP_TOLERANCE_CM then
    { pos := otherInner.bottom + movingWalls.north
      snapped := true
      guide := some otherInner.bottom }
  else if |movingOuter.top - otherOuter.top| ≤ SNAP_TOLERANCE_CM then
    { pos := otherOuter.top + movingWalls.north
      snapped := true
      guide := some otherOuter.top }
  else if |movingOuter.bottom - otherOuter.bottom| ≤ SNAP_TOLERANCE_CM then
    { pos := otherOuter.bottom - movingRoom.heightCm - movingWalls.south
      snapped := true
      guide := some otherOuter.bottom }
  else acc

/-- Full loop state of calculateSnap (both axes). -/
structure SnapAcc where
  x : AxisAcc
  y : AxisAcc
deriving DecidableEq, Repr

/-- One iteration of the for-loop of calculateSnap (page.tsx 2190-2289):
the X block then the Y block; the blocks touch disjoint state. -/
def snapStepRoom (movingRoom : Room) (globalWallThicknessCm : ℚ) (movingOuter : OuterBounds)
    (acc : SnapAcc) (other : Room) : SnapAcc where
  x := snapStepRoomX movingRoom globalWallThicknessCm movingOuter acc.x other
  y := snapStepRoomY movingRoom globalWallThicknessCm movingOuter acc.y other

/-- The for-loop of calculateSnap over the neighbor list, with the early
break once both axes have snapped (page.tsx 2288). -/
def snapLoop (movingRoom : Room) (globalWallThicknessCm : ℚ) (movingOuter : OuterBounds) :
    SnapAcc → List Room → SnapAcc
  | acc, [] => acc
  | acc, other :: rest =>
    let acc2 := snapStepRoom movingRoom globalWallThicknessCm movingOuter acc other
    if acc2.x.snapped && acc2.y.snapped then acc2
    else snapLoop movingRoom globalWallThicknessCm movingOuter acc2 rest

/-- page.tsx 2170-2299: snap a moving room dragged to a candidate position
against all other rooms (the moving room is filtered out of the list by
id). -/
def calculateSnap (movingRoom : Room) (allRooms : List Room)
    (targetXCm targetYCm globalWallThicknessCm : ℚ) : SnapResult :=
  let others := allRooms.filter (fun r => r.id != movingRoom.id)
  let movingOuter := outerBoundsCm movingRoom globalWallThicknessCm targetXCm targetYCm
  let acc := snapLoop movingRoom globalWallThicknessCm movingOuter
    { x := { pos := targetXCm, snapped := false, guide := none }
      y := { pos := targetYCm, snapped := false, guide := none } } others
  { xCm := acc.x.pos
    yCm := acc.y.pos
    snappedX := acc.x.snapped
    snappedY := acc.y.snapped
    xGuideCm := acc.x.guide
    yGuideCm := acc.y.guide }

/-- Derived view of calculateSnap used by the proofs: the X components of
its loop state as a plain left fold over the filtered neighbor list (the
early break of the loop is observationally irrelevant, which the lemma
calculateSnap_eq_fold establishes). -/
def snapFoldX (movingRoom : Room) (allRooms : List Room) (targetXCm targetYCm globalWallThicknessCm : ℚ) : AxisAcc :=
  List.foldl
    (snapStepRoomX movingRoom globalWallThicknessCm
      (outerBoundsCm movingRoom globalWallThicknessCm targetXCm targetYCm))
    { pos := targetXCm, snapped := false, guide := none }
    (allRooms.filter (fun r => r.id != movingRoom.id))

/-- Derived view of calculateSnap used by the proofs: the Y components of
its loop state as a plain left fold over the filtered neighbor list. -/
def snapFoldY (movingRoom : Room) (allRooms : List Room) (targetXCm targetYCm globalWallThicknessCm : ℚ) : AxisAcc :=
  List.foldl
    (snapStepRoomY movingRoom globalWallThicknessCm
      (outerBoundsCm movingRoom globalWallThicknessCm targetXCm targetYCm))
    { pos := targetYCm, snapped := false, guide := none }
    (allRooms.filter (fun r => r.id != movingRoom.id))

/-- page.tsx 2302: snap tolerance for objects against walls. -/
def OBJECT_SNAP_TOLERANCE_CM : ℚ := 25

/-- page.tsx 2304: snap tolerance for object-to-object alignment. -/
def OBJECT_TO_OBJECT_SNAP_TOLERANCE_CM : ℚ := 15

/-- page.tsx 2306-2312: a peer object, already reduced to its visual
bounding box by the caller. -/
structure PlacedObjectForSnap where
  id : String
  xCm : ℚ
  yCm : ℚ
  widthCm : ℚ
  heightCm : ℚ
deriving DecidableEq, Repr

/-- One axis of the mutable state of calculatePlacedObjectSnap:
snappedXCm / snappedX / xGuideCm / bestSnapDistX (resp. the Y variants). -/
structure ObjAxisAcc where
  pos : ℚ
  snapped : Bool
  guide : Option ℚ
  best : ℚ
deriving DecidableEq, Repr

/-- The candidate-test pattern repeated twelve times per axis pair in
calculatePlacedObjectSnap (page.tsx 2356-2474): accept a candidate when
its distance is within the applicable tolerance and strictly beats the
best distance so far. -/
def applySnapCandidate (tol dist pos guide : ℚ) (acc : ObjAxisAcc) : ObjAxisAcc :=
  if dist ≤ tol ∧ dist < acc.best then
    { pos := pos, snapped := true, guide := some guide, best := dist }
  else acc

/-- One iteration of the other-objects loop of calculatePlacedObjectSnap
(page.tsx 2394-2475): skip the dragged object itself, else test the four
X candidates left-to-other-right, right-to-other-left,
left-to-other-left, right-to-other-right and the four Y candidates
top-to-other-bottom, bottom-to-other-top, top-to-other-top,
bottom-to-other-bottom, in source order, all with the object-to-object
tolerance. -/
def placedObjectSnapStep (objWidthCm objHeightCm targetXCm targetYCm : ℚ)
    (currentObjectId : Option String) (p : ObjAxisAcc × ObjAxisAcc)
    (other : PlacedObjectForSnap) : ObjAxisAcc × ObjAxisAcc :=
  if currentObjectId == some other.id then p else
  let objLeft := targetXCm
  let objRight := targetXCm + objWidthCm
  let objTop := targetYCm
  let objBottom := targetYCm + objHeightCm
  let objSnapTolerance := OBJECT_TO_OBJECT_SNAP_TOLERANCE_CM
  let otherLeft := other.xCm
  let otherRight := other.xCm + other.widthCm
  let otherTop := other.yCm
  let otherBottom := other.yCm + other.heightCm
  let xa := applySnapCandidate objSnapTolerance |objLeft - otherRight| otherRight otherRight p.1
  let xa := applySnapCandidate objSnapTolerance |objRight - otherLeft| (otherLeft - objWidthCm) otherLeft xa
  let xa := applySnapCandidate objSnapTolerance |objLeft - otherLeft| otherLeft otherLeft xa
  let xa := applySnapCandidate objSnapTolerance |objRight - otherRight| (otherRight - objWidthCm) otherRight xa
  let ya := applySnapCandidate objSnapTolerance |objTop - otherBottom| otherBottom otherBottom p.2
  let ya := applySnapCandidate objSnapTolerance |objBottom - otherTop| (otherTop - objHeightCm) otherTop ya
  let ya := applySnapCandidate objSnapTolerance |objTop - otherTop| otherTop otherTop ya
  let ya := applySnapCandidate objSnapTolerance |objBottom - otherBottom| (otherBottom - objHeightCm) otherBottom ya
  (xa, ya)

/-- page.tsx 2320-2485: snap a placed object (given by its visual bounding
box) against the containing room's inner edges and the other objects'
visual bounding boxes.  The candidates are tested in source order: room
left, room right (X) and room top, room bottom (Y) with the wall
tolerance, then the loop over the other objects. -/
def calculatePlacedObjectSnap (objWidthCm objHeightCm : ℚ) (room : Room)
    (targetXCm targetYCm : ℚ) (toleranceCm : ℚ)
    (otherObjects : List PlacedObjectForSnap) (currentObjectId : Option String) : SnapResult :=
  let leftEdge := room.xCm
  let rightEdge := room.xCm + room.widthCm
  let topEdge := room.yCm
  let bottomEdge := room.yCm + room.heightCm
  let objLeft := targetXCm
  let objRight := targetXCm + objWidthCm
  let objTop := targetYCm
  let objBottom := targetYCm + objHeightCm
  let xa0 : ObjAxisAcc := { pos := targetXCm, snapped := false, guide := none, best := toleranceCm + 1 }
  let ya0 : ObjAxisAcc := { pos := targetYCm, snapped := false, guide := none, best := toleranceCm + 1 }
  let xa1 := applySnapCandidate toleranceCm |objLeft - leftEdge| leftEdge leftEdge xa0
  let xa2 := applySnapCandidate toleranceCm |objRight - rightEdge| (rightEdge - objWidthCm) rightEdge xa1
  let ya1 := applySnapCandidate toleranceCm |objTop - topEdge| topEdge topEdge ya0
  let ya2 := applySnapCandidate toleranceCm |objBottom - bottomEdge| (bottomEdge - objHeightCm) bottomEdge ya1
  let accF := otherObjects.foldl
    (placedObjectSnapStep objWidthCm objHeightCm targetXCm targetYCm currentObjectId) (xa2, ya2)
  { xCm := accF.1.pos
    yCm := accF.2.pos
    snappedX := accF.1.snapped
    snappedY := accF.2.snapped
    xGuideCm := accF.1.guide
    yGuideCm := accF.2.guide }

/-- An abstract snap candidate of calculatePlacedObjectSnap: its
applicable tolerance, its distance from the object's corresponding edge,
the snapped position it would produce, and its guide coordinate. -/
structure SnapCandidate where
  tol : ℚ
  dist : ℚ
  pos : ℚ
  guide : ℚ
deriving DecidableEq, Repr

/-- A candidate lies within its applicable tolerance. -/
def SnapCandidate.ok (c : SnapCandidate) : Prop := c.dist ≤ c.tol

instance (c : SnapCandidate) : Decidable c.ok := by
  unfold SnapCandidate.ok; infer_instance

/-- applySnapCandidate, candidate-record form. -/
def applyCand (acc : ObjAxisAcc) (c : SnapCandidate) : ObjAxisAcc :=
  applySnapCandidate c.tol c.dist c.pos c.guide acc

/-- The four X candidates a single other object contributes in
calculatePlacedObjectSnap, in test order; empty for the skipped dragged
object. -/
def objectXCands (objWidthCm targetXCm : ℚ) (currentObjectId : Option String)
    (other : PlacedObjectForSnap) : List SnapCandidate :=
  if currentObjectId == some other.id then [] else
  let objLeft := targetXCm
  let objRight := targetXCm + objWidthCm
  let otherLeft := other.xCm
  let otherRight := other.xCm + other.widthCm
  [ { tol := OBJECT_TO_OBJECT_SNAP_TOLERANCE_CM, dist := |objLeft - otherRight|, pos := otherRight, guide := otherRight }
  , { tol := OBJECT_TO_OBJECT_SNAP_TOLERANCE_CM, dist := |objRight - otherLeft|, pos := otherLeft - objWidthCm, guide := otherLeft }
  , { tol := OBJECT_TO_OBJECT_SNAP_TOLERANCE_CM, dist := |objLeft - otherLeft|, pos := otherLeft, guide := otherLeft }
  , { tol := OBJECT_TO_OBJECT_SNAP_TOLERANCE_CM, dist := |objRight - otherRight|, pos := otherRight - objWidthCm, guide := otherRight } ]

/-- The four Y candidates a single other object contributes, in test
order. -/
def objectYCands (objHeightCm targetYCm : ℚ) (currentObjectId : Option String)
    (other : PlacedObjectForSnap) : List SnapCandidate :=
  if currentObjectId == some other.id then [] else
  let objTop := targetYCm
  let objBottom := targetYCm + objHeightCm
  let otherTop := other.yCm
  let otherBottom := other.yCm + other.heightCm
  [ { tol := OBJECT_TO_OBJECT_SNAP_TOLERANCE_CM, dist := |objTop - otherBottom|, pos := otherBottom, guide := otherBottom }
  , { tol := OBJECT_TO_OBJECT_SNAP_TOLERANCE_CM, dist := |objBottom - otherTop|, pos := otherTop - objHeightCm, guide := otherTop }
  , { tol := OBJECT_TO_OBJECT_SNAP_TOLERANCE_CM, dist := |objTop - otherTop|, pos := otherTop, guide := otherTop }
  , { tol := OBJECT_TO_OBJECT_SNAP_TOLERANCE_CM, dist := |objBottom - otherBottom|, pos := otherBottom - objHeightCm, guide := otherBottom } ]

/-- All X-axis candidates of calculatePlacedObjectSnap in test order: the
two room-wall candidates, then four per other object. -/
def objectSnapXCandidates (objWidthCm : ℚ) (room : Room) (targetXCm toleranceCm : ℚ)
    (otherObjects : List PlacedObjectForSnap) (currentObjectId : Option String) :
    List SnapCandidate :=
  { tol := toleranceCm, dist := |targetXCm - room.xCm|, pos := room.xCm, guide := room.xCm } ::
  { tol := toleranceCm, dist := |targetXCm + objWidthCm - (room.xCm + room.widthCm)|,
    pos := room.xCm + room.widthCm - objWidthCm, guide := room.xCm + room.widthCm } ::
  otherObjects.flatMap (objectXCands objWidthCm targetXCm currentObjectId)

/-- All Y-axis candidates of calculatePlacedObjectSnap in test order. -/
def objectSnapYCandidates (objHeightCm : ℚ) (room : Room) (targetYCm toleranceCm : ℚ)
    (otherObjects : List PlacedObjectForSnap) (currentObjectId : Option String) :
    List SnapCandidate :=
  { tol := toleranceCm, dist := |targetYCm - room.yCm|, pos := room.yCm, guide := room.yCm } ::
  { tol := toleranceCm, dist := |targetYCm + objHeightCm - (room.yCm + room.heightCm)|,
    pos := room.yCm + room.heightCm - objHeightCm, guide := room.yCm + room.heightCm } ::
  otherObjects.flatMap (objectYCands objHeightCm targetYCm currentObjectId)

/-- Derived view of calculatePlacedObjectSnap used by the proofs: the X
components of its state as a plain left fold of the candidate tests over
the X candidate list. -/
def objSnapFoldX (objWidthCm : ℚ) (room : Room) (targetXCm toleranceCm : ℚ)
    (otherObjects : List PlacedObjectForSnap) (currentObjectId : Option String) : ObjAxisAcc :=
  List.foldl applyCand
    { pos := targetXCm, snapped := false, guide := none, best := toleranceCm + 1 }
    (objectSnapXCandidates objWidthCm room targetXCm toleranceCm otherObjects currentObjectId)

/-- Derived view of calculatePlacedObjectSnap used by the proofs: the Y
components of its state as a plain left fold over the Y candidate list. -/
def objSnapFoldY (objHeightCm : ℚ) (room : Room) (targetYCm toleranceCm : ℚ)
    (otherObjects : List PlacedObjectForSnap) (currentObjectId : Option String) : ObjAxisAcc :=
  List.foldl applyCand
    { pos := targetYCm, snapped := false, guide := none, best := toleranceCm + 1 }
    (objectSnapYCandidates objHeightCm room targetYCm toleranceCm otherObjects currentObjectId)

/-- Invariant of the candidate fold of calculatePlacedObjectSnap: either
no processed candidate was within its tolerance and the axis state is
still the initial one (target position, unsnapped, best distance at the
sentinel B), or the axis state carries a within-tolerance processed
candidate of minimal distance among all within-tolerance processed
candidates. -/
def SnapInv (t B : ℚ) (processed : List SnapCandidate) (acc : ObjAxisAcc) : Prop :=
  (acc = { pos := t, snapped := false, guide := none, best := B } ∧
    ∀ c ∈ processed, ¬ c.ok) ∨
  (∃ c ∈ processed, c.ok ∧ acc.pos = c.pos ∧ acc.snapped = true ∧
    acc.guide = some c.guide ∧ acc.best = c.dist ∧
    ∀ c2 ∈ processed, c2.ok → c.dist ≤ c2.dist)

/-- Visual bounding box of a placed object. -/
structure VisualBounds where
  x : ℚ
  y : ℚ
  w : ℚ
  h : ℚ
deriving DecidableEq, Repr

/-- page.tsx 526-543: visual (rotation-adjusted) bounding box of a placed
object; for 90 and 270 degree rotations width and height swap around the
preserved centre. -/
def getVisualBounds (objXCm objYCm origW origH : ℚ) (rotationDeg : Int) : VisualBounds :=
  if rotationDeg.tmod 180 = 0 then
    { x := objXCm, y := objYCm, w := origW, h := origH }
  else
    let centerX := objXCm + origW / 2
    let centerY := objYCm + origH / 2
    let newW := origH
    let newH := origW
    { x := centerX - newW / 2, y := centerY - newH / 2, w := newW, h := newH }

/-- Stored (un-rotated) coordinates of a placed object. -/
structure StorageCoords where
  xCm : ℚ
  yCm : ℚ
deriving DecidableEq, Repr

/-- page.tsx 546-561: convert a visual bounding-box top-left back to
storage coordinates, preserving the centre. -/
def visualToStorage (visualX visualY origW origH : ℚ) (rotationDeg : Int) : StorageCoords :=
  if rotationDeg.tmod 180 = 0 then
    { xCm := visualX, yCm := visualY }
  else
    let newW := origH
    let newH := origW
    let centerX := visualX + newW / 2
    let centerY := visualY + newH / 2
    { xCm := centerX - origW / 2, yCm := centerY - origH / 2 }

/-- History wrapper around an application state, from the spec (section
3, HistoryState): past snapshots oldest first, authoritative present,
redo stack with the next redo target first. -/
structure HistoryState (α : Type) where
  past : List α
  present : α
  future : List α
deriving DecidableEq, Repr

/-- Modelled from the spec: recordHistory of src/model/state (not under
src/): pushes the previous present onto past, sets present to the new
state, clears future (spec section 4.5). -/
def recordHistory {α : Type} (h : HistoryState α) (newState : α) : HistoryState α :=
  { past := h.past ++ [h.present], present := newState, future := [] }

/-- Modelled from the spec: undo of src/model/state (not under src/):
no-op if past is empty; otherwise pops the most recent past entry into
present and pushes the old present onto future (spec section 4.5). -/
def undo {α : Type} (h : HistoryState α) : HistoryState α :=
  match h.past.getLast? with
  | none => h
  | some prev => { past := h.past.dropLast, present := prev, future := h.present :: h.future }

/-- Modelled from the spec: redo of src/model/state (not under src/),
symmetric to undo: no-op if future is empty; otherwise pops the most
recent future entry into present and pushes the old present onto past
(spec section 4.5). -/
def redo {α : Type} (h : HistoryState α) : HistoryState α :=
  match h.future with
  | [] => h
  | nxt :: rest => { past := h.past ++ [h.present], present := nxt, future := rest }

/-- page.tsx 37-45, the recordInHistory = false branch of updateState used
by every drag-in-progress pointer-move update: replace present, leave the
past and future stacks untouched. -/
def dragMoveUpdate {α : Type} (h : HistoryState α) (newState : α) : HistoryState α :=
  { h with present := newState }

/-- page.tsx 630-635, the pointer-up handler's history commit for an
active drag: record the current present as the single checkpoint of the
whole drag (recordHistory applied to the state with present already at the
final drag state). -/
def dragCommit {α : Type} (h : HistoryState α) : HistoryState α :=
  recordHistory { h with present := h.present } h.present

/-- Wall side of an opening (spec section 3, WallOpening). -/
inductive WallSide where
  | north
  | south
  | east
  | west
deriving DecidableEq, Repr

/-- Opening kind (spec section 3, WallOpening). -/
inductive OpeningType where
  | door
  | window
deriving DecidableEq, Repr

/-- Modelled from the spec: WallOpening record of src/model/types (not
under src/): unique id, owning room id, wall side, offset along the wall,
width, kind (spec section 3). -/
structure WallOpening where
  id : String
  roomId : String
  wall : WallSide
  positionCm : ℚ
  widthCm : ℚ
  type : OpeningType
deriving DecidableEq, Repr

/-- Modelled from the spec: ObjectDef record of src/model/types (not
under src/) (spec section 3). -/
structure ObjectDef where
  id : String
  name : String
  widthCm : ℚ
  heightCm : ℚ
deriving DecidableEq, Repr

/-- Modelled from the spec: PlacedObject record of src/model/types (not
under src/): instance of an ObjectDef placed in a room (spec section 3). -/
structure PlacedObject where
  id : String
  defId : String
  roomId : String
  xCm : ℚ
  yCm : ℚ
  rotationDeg : Int
deriving DecidableEq, Repr

/-- Modelled from the spec: the aggregate AppState of src/model/types
(not under src/) (spec section 3). -/
structure AppState where
  rooms : List Room
  wallOpenings : List WallOpening
  objectDefs : List ObjectDef
  placedObjects : List PlacedObject
  selectedRoomIds : List String
  selectedObjectId : Option String
  globalWallThicknessCm : ℚ
  panX : ℚ
  panY : ℚ
  zoom : ℚ
deriving DecidableEq, Repr

/-- Modelled from the spec: deleteRoom of src/model/state (not under
src/): removes the room and cascades, deleting every wall opening and
every placed object referencing that room id (spec sections 3 and 4.4). -/
def deleteRoom (state : AppState) (roomId : String) : AppState :=
  { state with
    rooms := state.rooms.filter (fun r => r.id != roomId)
    wallOpenings := state.wallOpenings.filter (fun o => o.roomId != roomId)
    placedObjects := state.placedObjects.filter (fun p => p.roomId != roomId) }

/-- Ten-centimetre wall thickness on all four sides. -/
def wallAll10 : WallThicknessOverride :=
  { north := some 10, south := some 10, east := some 10, west := some 10 }

/-- Room A of the worked example in the spec (section 8): position (0,0),
size 300 by 400, 10 cm walls on all sides. -/
def specRoomA : Room :=
  { id := "A", xCm := 0, yCm := 0, widthCm := 300, heightCm := 400,
    wallThickness := some wallAll10 }

/-- A concrete room B with 10 cm walls on all sides, used to evaluate the
worked example of the spec at an explicit input. -/
def specRoomB : Room :=
  { id := "B", xCm := 0, yCm := 0, widthCm := 200, heightCm := 100,
    wallThickness := some wallAll10 }

/-- A concrete far-away room used as an extra neighbor in witnesses. -/
def specRoomC : Room :=
  { id := "C", xCm := 5000, yCm := 5000, widthCm := 100, heightCm := 100,
    wallThickness := some wallAll10 }

/-- A concrete application state used to evaluate the cascade delete at
an explicit input: two rooms, one opening and one placed object per
room. -/
def specAppState : AppState :=
  { rooms := [specRoomA, specRoomB]
    wallOpenings :=
      [ { id := "o1", roomId := "A", wall := WallSide.north, positionCm := 50, widthCm := 90,
          type := OpeningType.door }
      , { id := "o2", roomId := "B", wall := WallSide.east, positionCm := 20, widthCm := 80,
          type := OpeningType.window } ]
    objectDefs := [{ id := "d1", name := "table", widthCm := 80, heightCm := 80 }]
    placedObjects :=
      [ { id := "p1", defId := "d1", roomId := "A", xCm := 40, yCm := 40, rotationDeg := 0 }
      , { id := "p2", defId := "d1", roomId := "B", xCm := 10, yCm := 10, rotationDeg := 90 } ]
    selectedRoomIds := []
    selectedObjectId := none
    globalWallThicknessCm := 10
    panX := 0
    panY := 0
    zoom := 1 }

section RoomSnapLemmas

variable (R N : Room) (g tx ty : ℚ) (O : OuterBounds)

theorem snapStepRoomX_of_snapped (acc : AxisAcc) (o : Room) (h : acc.snapped = true) :
    snapStepRoomX R g O acc o = acc := by
  simp [snapStepRoomX, h]

theorem snapStepRoomY_of_snapped (acc : AxisAcc) (o : Room) (h : acc.snapped = true) :
    snapStepRoomY R g O acc o = acc := by
  simp [snapStepRoomY, h]

theorem foldl_snapStepRoomX_of_snapped (L : List Room) (acc : AxisAcc) (h : acc.snapped = true) :
    List.foldl (snapStepRoomX R g O) acc L = acc := by
  induction L with
  | nil => rfl
  | cons o rest ih =>
    rw [List.foldl_cons, snapStepRoomX_of_snapped R g O acc o h, ih]

theorem foldl_snapStepRoomY_of_snapped (L : List Room) (acc : AxisAcc) (h : acc.snapped = true) :
    List.foldl (snapStepRoomY R g O) acc L = acc := by
  induction L with
  | nil => rfl
  | cons o rest ih =>
    rw [List.foldl_cons, snapStepRoomY_of_snapped R g O acc o h, ih]

theorem snapLoop_x (L : List Room) (acc : SnapAcc) :
    (snapLoop R g O acc L).x = List.foldl (snapStepRoomX R g O) acc.x L := by
  induction L generalizing acc with
  | nil => rfl
  | cons o rest ih =>
    rw [List.foldl_cons]
    show (let acc2 := snapStepRoom R g O acc o
          if acc2.x.snapped && acc2.y.snapped then acc2
          else snapLoop R g O acc2 rest).x =
      List.foldl (snapStepRoomX R g O) (snapStepRoomX R g O acc.x o) rest
    by_cases h : ((snapStepRoom R g O acc o).x.snapped && (snapStepRoom R g O acc o).y.snapped) = true
    · simp only [h, if_true]
      have hx : (snapStepRoom R g O acc o).x.snapped = true := (Bool.and_eq_true _ _ |>.mp h).1
      exact (foldl_snapStepRoomX_of_snapped R g O rest (snapStepRoomX R g O acc.x o) hx).symm
    · simp only [h, if_false]
      exact ih _

theorem snapLoop_y (L : List Room) (acc : SnapAcc) :
    (snapLoop R g O acc L).y = List.foldl (snapStepRoomY R g O) acc.y L := by
  induction L generalizing acc with
  | nil => rfl
  | cons o rest ih =>
    rw [List.foldl_cons]
    show (let acc2 := snapStepRoom R g O acc o
          if acc2.x.snapped && acc2.y.snapped then acc2
          else snapLoop R g O acc2 rest).y =
      List.foldl (snapStepRoomY R g O) (snapStepRoomY R g O acc.y o) rest
    by_cases h : ((snapStepRoom R g O acc o).x.snapped && (snapStepRoom R g O acc o).y.snapped) = true
    · simp only [h, if_true]
      have hy : (snapStepRoom R g O acc o).y.snapped = true := (Bool.and_eq_true _ _ |>.mp h).2
      exact (foldl_snapStepRoomY_of_snapped R g O rest (snapStepRoomY R g O acc.y o) hy).symm
    · simp only [h, if_false]
      exact ih _

theorem calculateSnap_eq_fold (rooms : List Room) :
    calculateSnap R rooms tx ty g =
      { xCm := (snapFoldX R rooms tx ty g).pos
        yCm := (snapFoldY R rooms tx ty g).pos
        snappedX := (snapFoldX R rooms tx ty g).snapped
        snappedY := (snapFoldY R rooms tx ty g).snapped
        xGuideCm := (snapFoldX R rooms tx ty g).guide
        yGuideCm := (snapFoldY R rooms tx ty g).guide } := by
  unfold calculateSnap snapFoldX snapFoldY
  dsimp only
  rw [snapLoop_x, snapLoop_y]

theorem snapStepRoomX_outer_ty (ty' : ℚ) :
    snapStepRoomX R g (outerBoundsCm R g tx ty) = snapStepRoomX R g (outerBoundsCm R g tx ty') := rfl

theorem snapStepRoomY_outer_tx (tx' : ℚ) :
    snapStepRoomY R g (outerBoundsCm R g tx ty) = snapStepRoomY R g (outerBoundsCm R g tx' ty) := rfl

theorem snapFoldX_ty (rooms : List Room) (ty' : ℚ) :
    snapFoldX R rooms tx ty g = snapFoldX R rooms tx ty' g := by
  unfold snapFoldX
  rw [snapStepRoomX_outer_ty R g tx ty ty']

theorem snapFoldY_tx (rooms : List Room) (tx' : ℚ) :
    snapFoldY R rooms tx ty g = snapFoldY R rooms tx' ty g := by
  unfold snapFoldY
  rw [snapStepRoomY_outer_tx R g tx ty tx']

theorem filter_singleton_of_ne (h : N.id ≠ R.id) :
    ([N].filter (fun r => r.id != R.id)) = [N] := by
  have hb : (N.id != R.id) = true := bne_iff_ne.mpr h
  simp [List.filter, hb]

theorem snapFoldX_singleton (h : N.id ≠ R.id) :
    snapFoldX R [N] tx ty g =
      snapStepRoomX R g (outerBoundsCm R g tx ty) { pos := tx, snapped := false, guide := none } N := by
  unfold snapFoldX
  rw [filter_singleton_of_ne R N h]
  rfl

theorem snapFoldY_singleton (h : N.id ≠ R.id) :
    snapFoldY R [N] tx ty g =
      snapStepRoomY R g (outerBoundsCm R g tx ty) { pos := ty, snapped := false, guide := none } N := by
  unfold snapFoldY
  rw [filter_singleton_of_ne R N h]
  rfl

theorem snapStepRoomX_cases (acc : AxisAcc) (o : Room) :
    snapStepRoomX R g O acc o = acc ∨ (snapStepRoomX R g O acc o).snapped = true := by
  simp only [snapStepRoomX]
  split_ifs <;> simp

theorem snapStepRoomX_not_snapped_eq (acc : AxisAcc) (o : Room)
    (h : (snapStepRoomX R g O acc o).snapped = false) :
    snapStepRoomX R g O acc o = acc := by
  rcases snapStepRoomX_cases R g O acc o with he | ht
  · exact he
  · rw [ht] at h; cases h

theorem snapStepRoomY_cases (acc : AxisAcc) (o : Room) :
    snapStepRoomY R g O acc o = acc ∨ (snapStepRoomY R g O acc o).snapped = true := by
  simp only [snapStepRoomY]
  split_ifs <;> simp

theorem snapStepRoomY_not_snapped_eq (acc : AxisAcc) (o : Room)
    (h : (snapStepRoomY R g O acc o).snapped = false) :
    snapStepRoomY R g O acc o = acc := by
  rcases snapStepRoomY_cases R g O acc o with he | ht
  · exact he
  · rw [ht] at h; cases h

theorem snapStepRoomX_pos_bound (acc : AxisAcc) (o : Room)
    (h : |acc.pos - tx| ≤ WALL_SNAP_TOLERANCE_CM) :
    |(snapStepRoomX R g (outerBoundsCm R g tx ty) acc o).pos - tx| ≤ WALL_SNAP_TOLERANCE_CM := by
  simp only [snapStepRoomX]
  split_ifs with h0 h1 h2 h3 h4
  · exact h
  · simp only [outerBoundsCm, innerBoundsCm, WALL_SNAP_TOLERANCE_CM] at h1 ⊢
    rw [abs_le] at h1 ⊢
    constructor <;> linarith
  · simp only [outerBoundsCm, innerBoundsCm, WALL_SNAP_TOLERANCE_CM] at h2 ⊢
    rw [abs_le] at h2 ⊢
    constructor <;> linarith
  · simp only [outerBoundsCm, innerBoundsCm, WALL_SNAP_TOLERANCE_CM, SNAP_TOLERANCE_CM] at h3 ⊢
    rw [abs_le] at h3 ⊢
    constructor <;> linarith
  · simp only [outerBoundsCm, innerBoundsCm, WALL_SNAP_TOLERANCE_CM, SNAP_TOLERANCE_CM] at h4 ⊢
    rw [abs_le] at h4 ⊢
    constructor <;> linarith
  · exact h

theorem snapStepRoomY_pos_bound (acc : AxisAcc) (o : Room)
    (h : |acc.pos - ty| ≤ WALL_SNAP_TOLERANCE_CM) :
    |(snapStepRoomY R g (outerBoundsCm R g tx ty) acc o).pos - ty| ≤ WALL_SNAP_TOLERANCE_CM := by
  simp only [snapStepRoomY]
  split_ifs with h0 h1 h2 h3 h4
  · exact h
  · simp only [outerBoundsCm, innerBoundsCm, WALL_SNAP_TOLERANCE_CM] at h1 ⊢
    rw [abs_le] at h1 ⊢
    constructor <;> linarith
  · simp only [outerBoundsCm, innerBoundsCm, WALL_SNAP_TOLERANCE_CM] at h2 ⊢
    rw [abs_le] at h2 ⊢
    constructor <;> linarith
  · simp only [outerBoundsCm, innerBoundsCm, WALL_SNAP_TOLERANCE_CM, SNAP_TOLERANCE_CM] at h3 ⊢
    rw [abs_le] at h3 ⊢
    constructor <;> linarith
  · simp only [outerBoundsCm, innerBoundsCm, WALL_SNAP_TOLERANCE_CM, SNAP_TOLERANCE_CM] at h4 ⊢
    rw [abs_le] at h4 ⊢
    constructor <;> linarith
  · exact h

theorem foldl_stepX_bound (L : List Room) : ∀ (acc : AxisAcc),
    |acc.pos - tx| ≤ WALL_SNAP_TOLERANCE_CM → (acc.snapped = false → acc.pos = tx) →
    |(List.foldl (snapStepRoomX R g (outerBoundsCm R g tx ty)) acc L).pos - tx| ≤ WALL_SNAP_TOLERANCE_CM ∧
    ((List.foldl (snapStepRoomX R g (outerBoundsCm R g tx ty)) acc L).snapped = false →
      (List.foldl (snapStepRoomX R g (outerBoundsCm R g tx ty)) acc L).pos = tx) := by
  induction L with
  | nil => exact fun acc h1 h2 => ⟨h1, h2⟩
  | cons o rest ih =>
    intro acc h1 h2
    rw [List.foldl_cons]
    refine ih _ (snapStepRoomX_pos_bound R g tx ty acc o h1) (fun hns => ?_)
    have he := snapStepRoomX_not_snapped_eq R g (outerBoundsCm R g tx ty) acc o hns
    rw [he]
    exact h2 (he ▸ hns)

theorem foldl_stepY_bound (L : List Room) : ∀ (acc : AxisAcc),
    |acc.pos - ty| ≤ WALL_SNAP_TOLERANCE_CM → (acc.snapped = false → acc.pos = ty) →
    |(List.foldl (snapStepRoomY R g (outerBoundsCm R g tx ty)) acc L).pos - ty| ≤ WALL_SNAP_TOLERANCE_CM ∧
    ((List.foldl (snapStepRoomY R g (outerBoundsCm R g tx ty)) acc L).snapped = false →
      (List.foldl (snapStepRoomY R g (outerBoundsCm R g tx ty)) acc L).pos = ty) := by
  induction L with
  | nil => exact fun acc h1 h2 => ⟨h1, h2⟩
  | cons o rest ih =>
    intro acc h1 h2
    rw [List.foldl_cons]
    refine ih _ (snapStepRoomY_pos_bound R g tx ty acc o h1) (fun hns => ?_)
    have he := snapStepRoomY_not_snapped_eq R g (outerBoundsCm R g tx ty) acc o hns
    rw [he]
    exact h2 (he ▸ hns)

theorem snapFoldX_bound (rooms : List Room) :
    |(snapFoldX R rooms tx ty g).pos - tx| ≤ WALL_SNAP_TOLERANCE_CM ∧
    ((snapFoldX R rooms tx ty g).snapped = false → (snapFoldX R rooms tx ty g).pos = tx) := by
  unfold snapFoldX
  refine foldl_stepX_bound R g tx ty _ _ ?_ ?_
  · simp [WALL_SNAP_TOLERANCE_CM]
  · intro _; rfl

theorem snapFoldY_bound (rooms : List Room) :
    |(snapFoldY R rooms tx ty g).pos - ty| ≤ WALL_SNAP_TOLERANCE_CM ∧
    ((snapFoldY R rooms tx ty g).snapped = false → (snapFoldY R rooms tx ty g).pos = ty) := by
  unfold snapFoldY
  refine foldl_stepY_bound R g tx ty _ _ ?_ ?_
  · simp [WALL_SNAP_TOLERANCE_CM]
  · intro _; rfl

theorem calculateSnap_self :
    calculateSnap R [R] tx ty g =
      { xCm := tx, yCm := ty, snappedX := false, snappedY := false,
        xGuideCm := none, yGuideCm := none } := by
  have hb : (R.id != R.id) = false := by simp
  simp [calculateSnap, List.filter, hb, snapLoop]

theorem snapStepRoomX_unsnapped :
    snapStepRoomX R g O { pos := tx, snapped := false, guide := none } N =
      (if |O.right - (innerBoundsCm N N.xCm N.yCm).left| ≤ WALL_SNAP_TOLERANCE_CM then
        { pos := (innerBoundsCm N N.xCm N.yCm).left - R.widthCm - O.w.east, snapped := true,
          guide := some (innerBoundsCm N N.xCm N.yCm).left }
      else if |O.left - (innerBoundsCm N N.xCm N.yCm).right| ≤ WALL_SNAP_TOLERANCE_CM then
        { pos := (innerBoundsCm N N.xCm N.yCm).right + O.w.west, snapped := true,
          guide := some (innerBoundsCm N N.xCm N.yCm).right }
      else if |O.left - (outerBoundsCm N g N.xCm N.yCm).left| ≤ SNAP_TOLERANCE_CM then
        { pos := (outerBoundsCm N g N.xCm N.yCm).left + O.w.west, snapped := true,
          guide := some (outerBoundsCm N g N.xCm N.yCm).left }
      else if |O.right - (outerBoundsCm N g N.xCm N.yCm).right| ≤ SNAP_TOLERANCE_CM then
        { pos := (outerBoundsCm N g N.xCm N.yCm).right - R.widthCm - O.w.east, snapped := true,
          guide := some (outerBoundsCm N g N.xCm N.yCm).right }
      else { pos := tx, snapped := false, guide := none }) := rfl

theorem snapStepRoomY_unsnapped :
    snapStepRoomY R g O { pos := ty, snapped := false, guide := none } N =
      (if |O.bottom - (innerBoundsCm N N.xCm N.yCm).top| ≤ WALL_SNAP_TOLERANCE_CM then
        { pos := (innerBoundsCm N N.xCm N.yCm).top - R.heightCm - O.w.south, snapped := true,
          guide := some (innerBoundsCm N N.xCm N.yCm).top }
      else if |O.top - (innerBoundsCm N N.xCm N.yCm).bottom| ≤ WALL_SNAP_TOLERANCE_CM then
        { pos := (innerBoundsCm N N.xCm N.yCm).bottom + O.w.north, snapped := true,
          guide := some (innerBoundsCm N N.xCm N.yCm).bottom }
      else if |O.top - (outerBoundsCm N g N.xCm N.yCm).top| ≤ SNAP_TOLERANCE_CM then
        { pos := (outerBoundsCm N g N.xCm N.yCm).top + O.w.north, snapped := true,
          guide := some (outerBoundsCm N g N.xCm N.yCm).top }
      else if |O.bottom - (outerBoundsCm N g N.xCm N.yCm).bottom| ≤ SNAP_TOLERANCE_CM then
        { pos := (outerBoundsCm N g N.xCm N.yCm).bottom - R.heightCm - O.w.south, snapped := true,
          guide := some (outerBoundsCm N g N.xCm N.yCm).bottom }
      else { pos := ty, snapped := false, guide := none }) := rfl

theorem filter_pair_of_ne (h : N.id ≠ R.id) :
    ([N, R].filter (fun r => r.id != R.id)) = [N] := by
  have hb : (N.id != R.id) = true := bne_iff_ne.mpr h
  simp [List.filter, hb]

theorem snapFoldX_pair (h : N.id ≠ R.id) :
    snapFoldX R [N, R] tx ty g =
      snapStepRoomX R g (outerBoundsCm R g tx ty) { pos := tx, snapped := false, guide := none } N := by
  unfold snapFoldX
  rw [filter_pair_of_ne R N h]
  rfl

theorem snapFoldY_pair (h : N.id ≠ R.id) :
    snapFoldY R [N, R] tx ty g =
      snapStepRoomY R g (outerBoundsCm R g tx ty) { pos := ty, snapped := false, guide := none } N := by
  unfold snapFoldY
  rw [filter_pair_of_ne R N h]
  rfl

theorem snapFoldX_append (L L2 : List Room) (h : (snapFoldX R L tx ty g).snapped = true) :
    snapFoldX R (L ++ L2) tx ty g = snapFoldX R L tx ty g := by
  unfold snapFoldX at h ⊢
  rw [List.filter_append, List.foldl_append]
  exact foldl_snapStepRoomX_of_snapped R g _ _ _ h

theorem snapFoldY_append (L L2 : List Room) (h : (snapFoldY R L tx ty g).snapped = true) :
    snapFoldY R (L ++ L2) tx ty g = snapFoldY R L tx ty g := by
  unfold snapFoldY at h ⊢
  rw [List.filter_append, List.foldl_append]
  exact foldl_snapStepRoomY_of_snapped R g _ _ _ h

end RoomSnapLemmas

/-- C6: for every pair of inputs to calculateSnap that differ only in the
candidate targetXCm, the returned yCm, snappedY and yGuideCm are
identical, and symmetrically the returned xCm, snappedX and xGuideCm do
not depend on targetYCm: snapping on one axis never alters the other
axis's result. -/
theorem C6_snap_axis_independence (R : Room) (rooms : List Room) (tx tx' ty ty' g : ℚ) :
    ((calculateSnap R rooms tx ty g).yCm = (calculateSnap R rooms tx' ty g).yCm ∧
     (calculateSnap R rooms tx ty g).snappedY = (calculateSnap R rooms tx' ty g).snappedY ∧
     (calculateSnap R rooms tx ty g).yGuideCm = (calculateSnap R rooms tx' ty g).yGuideCm) ∧
    ((calculateSnap R rooms tx ty g).xCm = (calculateSnap R rooms tx ty' g).xCm ∧
     (calculateSnap R rooms tx ty g).snappedX = (calculateSnap R rooms tx ty' g).snappedX ∧
     (calculateSnap R rooms tx ty g).xGuideCm = (calculateSnap R rooms tx ty' g).xGuideCm) := by
  simp only [calculateSnap_eq_fold]
  rw [snapFoldY_tx R g tx ty rooms tx', snapFoldX_ty R g tx ty rooms ty']
  exact ⟨⟨rfl, rfl, rfl⟩, ⟨rfl, rfl, rfl⟩⟩

/-- C7: for every placed object at stored top-left position P with width
w, height h and rotation 90 or 270 degrees, mapping the visual
(rotation-adjusted) bounding box of getVisualBounds back through
visualToStorage reconstructs P exactly, and the centre is preserved by
getVisualBounds. -/
theorem C7_rotation_roundtrip (x y w h : ℚ) (rot : Int) (hrot : rot = 90 ∨ rot = 270) :
    visualToStorage (getVisualBounds x y w h rot).x (getVisualBounds x y w h rot).y w h rot =
      { xCm := x, yCm := y } ∧
    (getVisualBounds x y w h rot).x + (getVisualBounds x y w h rot).w / 2 = x + w / 2 ∧
    (getVisualBounds x y w h rot).y + (getVisualBounds x y w h rot).h / 2 = y + h / 2 := by
  have h90 : ¬ ((90 : Int).tmod 180 = 0) := by decide
  have h270 : ¬ ((270 : Int).tmod 180 = 0) := by decide
  rcases hrot with hr | hr <;> subst hr <;>
    refine ⟨?_, ?_, ?_⟩ <;>
      simp only [getVisualBounds, visualToStorage, h90, h270, if_false, StorageCoords.mk.injEq] <;>
        first
        | (constructor <;> ring)
        | ring

/-- Witness for C7 at the concrete input (5, 7), width 20, height 30,
rotation 90. -/
theorem C7_witness :
    visualToStorage (getVisualBounds 5 7 20 30 90).x (getVisualBounds 5 7 20 30 90).y 20 30 90 =
      { xCm := 5, yCm := 7 } :=
  (C7_rotation_roundtrip 5 7 20 30 90 (Or.inl rfl)).1

/-- C10: on each axis the coordinate returned by calculateSnap differs
from the candidate target coordinate by at most WALL_SNAP_TOLERANCE_CM;
on an axis whose snapped flag is false the coordinate is the target
unchanged; and with no other rooms present (the moving room is excluded
from its own neighbor set) the target position is returned unchanged with
both snapped flags false. -/
theorem C10_snap_result_bounded (R : Room) (rooms : List Room) (tx ty g : ℚ) :
    |(calculateSnap R rooms tx ty g).xCm - tx| ≤ WALL_SNAP_TOLERANCE_CM ∧
    |(calculateSnap R rooms tx ty g).yCm - ty| ≤ WALL_SNAP_TOLERANCE_CM ∧
    ((calculateSnap R rooms tx ty g).snappedX = false → (calculateSnap R rooms tx ty g).xCm = tx) ∧
    ((calculateSnap R rooms tx ty g).snappedY = false → (calculateSnap R rooms tx ty g).yCm = ty) ∧
    calculateSnap R [R] tx ty g =
      { xCm := tx, yCm := ty, snappedX := false, snappedY := false,
        xGuideCm := none, yGuideCm := none } := by
  refine ⟨?_, ?_, ?_, ?_, calculateSnap_self R g tx ty⟩ <;>
    simp only [calculateSnap_eq_fold]
  · exact (snapFoldX_bound R g tx ty rooms).1
  · exact (snapFoldY_bound R g tx ty rooms).1
  · exact (snapFoldX_bound R g tx ty rooms).2
  · exact (snapFoldY_bound R g tx ty rooms).2

/-- Witness for C10 at a concrete input with no neighbors: the unsnapped
X axis returns the target unchanged. -/
theorem C10_witness : (calculateSnap specRoomB [specRoomB] 7 9 10).xCm = 7 :=
  (C10_snap_result_bounded specRoomB [specRoomB] 7 9 10).2.2.1
    (by rw [calculateSnap_self])

/-- C1: for a moving room R with neighbor N placed so that the relevant
outer edge of R at the candidate position lies within the wall-snap
tolerance of N's facing inner edge, calculateSnap returns a position at
which R's outer edge coordinate on that axis equals N's inner edge
coordinate exactly (zero residual); the four conjuncts cover the four
wall-overlap candidates in their priority order. -/
theorem C1_wall_overlap_zero_residual (R N : Room) (tx ty g : ℚ) (hid : N.id ≠ R.id) :
    (|(outerBoundsCm R g tx ty).right - (innerBoundsCm N N.xCm N.yCm).left| ≤ WALL_SNAP_TOLERANCE_CM →
      (calculateSnap R [N] tx ty g).xCm + R.widthCm + (getWallThicknessCm R g).east =
        (innerBoundsCm N N.xCm N.yCm).left) ∧
    (¬ |(outerBoundsCm R g tx ty).right - (innerBoundsCm N N.xCm N.yCm).left| ≤ WALL_SNAP_TOLERANCE_CM →
      |(outerBoundsCm R g tx ty).left - (innerBoundsCm N N.xCm N.yCm).right| ≤ WALL_SNAP_TOLERANCE_CM →
      (calculateSnap R [N] tx ty g).xCm - (getWallThicknessCm R g).west =
        (innerBoundsCm N N.xCm N.yCm).right) ∧
    (|(outerBoundsCm R g tx ty).bottom - (innerBoundsCm N N.xCm N.yCm).top| ≤ WALL_SNAP_TOLERANCE_CM →
      (calculateSnap R [N] tx ty g).yCm + R.heightCm + (getWallThicknessCm R g).south =
        (innerBoundsCm N N.xCm N.yCm).top) ∧
    (¬ |(outerBoundsCm R g tx ty).bottom - (innerBoundsCm N N.xCm N.yCm).top| ≤ WALL_SNAP_TOLERANCE_CM →
      |(outerBoundsCm R g tx ty).top - (innerBoundsCm N N.xCm N.yCm).bottom| ≤ WALL_SNAP_TOLERANCE_CM →
      (calculateSnap R [N] tx ty g).yCm - (getWallThicknessCm R g).north =
        (innerBoundsCm N N.xCm N.yCm).bottom) := by
  rw [calculateSnap_eq_fold]
  refine ⟨?_, ?_, ?_, ?_⟩
  · intro h1
    dsimp only
    rw [snapFoldX_singleton R N g tx ty hid, snapStepRoomX_unsnapped, if_pos h1]
    dsimp only
    simp only [outerBoundsCm]
    ring
  · intro h1 h2
    dsimp only
    rw [snapFoldX_singleton R N g tx ty hid, snapStepRoomX_unsnapped, if_neg h1, if_pos h2]
    dsimp only
    simp only [outerBoundsCm]
    ring
  · intro h1
    dsimp only
    rw [snapFoldY_singleton R N g tx ty hid, snapStepRoomY_unsnapped, if_pos h1]
    dsimp only
    simp only [outerBoundsCm]
    ring
  · intro h1 h2
    dsimp only
    rw [snapFoldY_singleton R N g tx ty hid, snapStepRoomY_unsnapped, if_neg h1, if_pos h2]
    dsimp only
    simp only [outerBoundsCm]
    ring

/-- Witness for C1: room B at candidate x = 300 next to room A; the
outer-left to inner-right candidate is within tolerance and calculateSnap
makes B's outer left edge equal A's inner right edge (300) exactly. -/
theorem C1_witness :
    (calculateSnap specRoomB [specRoomA] 300 1000 10).xCm - (getWallThicknessCm specRoomB 10).west =
      (innerBoundsCm specRoomA specRoomA.xCm specRoomA.yCm).right :=
  (C1_wall_overlap_zero_residual specRoomB specRoomA 300 1000 10 (by decide)).2.1
    (by
      norm_num [outerBoundsCm, innerBoundsCm, getWallThicknessCm, specRoomA, specRoomB,
        wallAll10, WALL_SNAP_TOLERANCE_CM])
    (by
      norm_num [outerBoundsCm, innerBoundsCm, getWallThicknessCm, specRoomA, specRoomB,
        wallAll10, WALL_SNAP_TOLERANCE_CM])

/-- C5: in calculateSnap the candidates of each axis are tested in
priority order (the two wall-overlap candidates within 15 cm before the
two outer-edge alignment candidates within 2 cm) and the first match wins
the axis (closed forms for a single neighbor, first two conjuncts); once
an axis has snapped over a prefix of the neighbor list, later neighbors
cannot change that axis (next two conjuncts); and once both axes have
snapped the remaining neighbors are irrelevant, as the loop breaks (last
conjunct). -/
theorem C5_priority_first_match (R N : Room) (L L2 : List Room) (tx ty g : ℚ)
    (hid : N.id ≠ R.id) :
    ((calculateSnap R [N] tx ty g).xCm =
      (if |(outerBoundsCm R g tx ty).right - (innerBoundsCm N N.xCm N.yCm).left| ≤ WALL_SNAP_TOLERANCE_CM then
        (innerBoundsCm N N.xCm N.yCm).left - R.widthCm - (getWallThicknessCm R g).east
      else if |(outerBoundsCm R g tx ty).left - (innerBoundsCm N N.xCm N.yCm).right| ≤ WALL_SNAP_TOLERANCE_CM then
        (innerBoundsCm N N.xCm N.yCm).right + (getWallThicknessCm R g).west
      else if |(outerBoundsCm R g tx ty).left - (outerBoundsCm N g N.xCm N.yCm).left| ≤ SNAP_TOLERANCE_CM then
        (outerBoundsCm N g N.xCm N.yCm).left + (getWallThicknessCm R g).west
      else if |(outerBoundsCm R g tx ty).right - (outerBoundsCm N g N.xCm N.yCm).right| ≤ SNAP_TOLERANCE_CM then
        (outerBoundsCm N g N.xCm N.yCm).right - R.widthCm - (getWallThicknessCm R g).east
      else tx)) ∧
    ((calculateSnap R [N] tx ty g).yCm =
      (if |(outerBoundsCm R g tx ty).bottom - (innerBoundsCm N N.xCm N.yCm).top| ≤ WALL_SNAP_TOLERANCE_CM then
        (innerBoundsCm N N.xCm N.yCm).top - R.heightCm - (getWallThicknessCm R g).south
      else if |(outerBoundsCm R g tx ty).top - (innerBoundsCm N N.xCm N.yCm).bottom| ≤ WALL_SNAP_TOLERANCE_CM then
        (innerBoundsCm N N.xCm N.yCm).bottom + (getWallThicknessCm R g).north
      else if |(outerBoundsCm R g tx ty).top - (outerBoundsCm N g N.xCm N.yCm).top| ≤ SNAP_TOLERANCE_CM then
        (outerBoundsCm N g N.xCm N.yCm).top + (getWallThicknessCm R g).north
      else if |(outerBoundsCm R g tx ty).bottom - (outerBoundsCm N g N.xCm N.yCm).bottom| ≤ SNAP_TOLERANCE_CM then
        (outerBoundsCm N g N.xCm N.yCm).bottom - R.heightCm - (getWallThicknessCm R g).south
      else ty)) ∧
    ((calculateSnap R L tx ty g).snappedX = true →
      ((calculateSnap R (L ++ L2) tx ty g).xCm = (calculateSnap R L tx ty g).xCm ∧
       (calculateSnap R (L ++ L2) tx ty g).snappedX = true ∧
       (calculateSnap R (L ++ L2) tx ty g).xGuideCm = (calculateSnap R L tx ty g).xGuideCm)) ∧
    ((calculateSnap R L tx ty g).snappedY = true →
      ((calculateSnap R (L ++ L2) tx ty g).yCm = (calculateSnap R L tx ty g).yCm ∧
       (calculateSnap R (L ++ L2) tx ty g).snappedY = true ∧
       (calculateSnap R (L ++ L2) tx ty g).yGuideCm = (calculateSnap R L tx ty g).yGuideCm)) ∧
    ((calculateSnap R L tx ty g).snappedX = true → (calculateSnap R L tx ty g).snappedY = true →
      calculateSnap R (L ++ L2) tx ty g = calculateSnap R L tx ty g) := by
  refine ⟨?_, ?_, ?_, ?_, ?_⟩
  · rw [calculateSnap_eq_fold]
    dsimp only
    rw [snapFoldX_singleton R N g tx ty hid, snapStepRoomX_unsnapped]
    split_ifs <;> simp [outerBoundsCm]
  · rw [calculateSnap_eq_fold]
    dsimp only
    rw [snapFoldY_singleton R N g tx ty hid, snapStepRoomY_unsnapped]
    split_ifs <;> simp [outerBoundsCm]
  · intro h
    rw [calculateSnap_eq_fold] at h ⊢
    rw [calculateSnap_eq_fold]
    dsimp only at h ⊢
    rw [snapFoldX_append R g tx ty L L2 h]
    exact ⟨rfl, h, rfl⟩
  · intro h
    rw [calculateSnap_eq_fold] at h ⊢
    rw [calculateSnap_eq_fold]
    dsimp only at h ⊢
    rw [snapFoldY_append R g tx ty L L2 h]
    exact ⟨rfl, h, rfl⟩
  · intro hx hy
    rw [calculateSnap_eq_fold] at hx hy ⊢
    rw [calculateSnap_eq_fold]
    dsimp only at hx hy ⊢
    rw [snapFoldX_append R g tx ty L L2 hx, snapFoldY_append R g tx ty L L2 hy]

/-- Witness for C5: with room A already having snapped the X axis for
room B, appending the far-away room C does not change the X result. -/
theorem C5_witness :
    (calculateSnap specRoomB ([specRoomA] ++ [specRoomC]) 300 1000 10).xCm =
      (calculateSnap specRoomB [specRoomA] 300 1000 10).xCm :=
  ((C5_priority_first_match specRoomB specRoomA [specRoomA] [specRoomC] 300 1000 10
      (by decide)).2.2.1
    (by
      norm_num [calculateSnap, snapLoop, snapStepRoom, snapStepRoomX, snapStepRoomY,
        outerBoundsCm, innerBoundsCm, getWallThicknessCm, WALL_SNAP_TOLERANCE_CM,
        SNAP_TOLERANCE_CM, specRoomA, specRoomB, wallAll10, List.filter])).1

/-- Counterexample for C2 as stated: with room A of the spec example and
a room B with 10 cm walls dragged to candidate x = 300 (left outer edge
290, within 15 cm of A's right inner edge 300), the snapped x is 310, so
B.xCm plus B's west wall thickness is 320, not 300. -/
theorem C2_counterexample :
    |((300 : ℚ) - (getWallThicknessCm specRoomB 10).west) - 300| ≤ 15 ∧
    ¬ ((calculateSnap specRoomB [specRoomA, specRoomB] 300 1000 10).xCm +
        (getWallThicknessCm specRoomB 10).west = 300) := by
  constructor
  · norm_num [getWallThicknessCm, specRoomB, wallAll10]
  · norm_num [calculateSnap, snapLoop, snapStepRoom, snapStepRoomX, snapStepRoomY,
      outerBoundsCm, innerBoundsCm, getWallThicknessCm, WALL_SNAP_TOLERANCE_CM,
      SNAP_TOLERANCE_CM, specRoomA, specRoomB, wallAll10, List.filter]

/-- C2 (amended): room A at (0,0), 300 by 400, 10 cm walls on all sides;
for any room B with nonnegative west and east wall thickness and
nonnegative width, dragged toward A's east side so that B's left outer
edge (candidate x minus B's west wall thickness) is within 15 cm of A's
right inner edge at 300, calculateSnap returns an x with
x minus westWallThickness(B) = 300 exactly (equivalently x = 300 plus the
west wall thickness, so that the walls overlap). -/
theorem C2_east_side_snap (B : Room) (tx ty g : ℚ)
    (hid : specRoomA.id ≠ B.id)
    (hwest : 0 ≤ (getWallThicknessCm B g).west)
    (heast : 0 ≤ (getWallThicknessCm B g).east)
    (hwidth : 0 ≤ B.widthCm)
    (hnear : |tx - (getWallThicknessCm B g).west - 300| ≤ 15) :
    (calculateSnap B [specRoomA, B] tx ty g).xCm - (getWallThicknessCm B g).west = 300 := by
  rw [calculateSnap_eq_fold]
  dsimp only
  rw [snapFoldX_pair B specRoomA g tx ty hid, snapStepRoomX_unsnapped]
  have hAx : (innerBoundsCm specRoomA specRoomA.xCm specRoomA.yCm).left = 0 := by
    norm_num [innerBoundsCm, specRoomA]
  have hAr : (innerBoundsCm specRoomA specRoomA.xCm specRoomA.yCm).right = 300 := by
    norm_num [innerBoundsCm, specRoomA]
  rw [abs_le] at hnear
  have hc1 : ¬ |(outerBoundsCm B g tx ty).right -
      (innerBoundsCm specRoomA specRoomA.xCm specRoomA.yCm).left| ≤ WALL_SNAP_TOLERANCE_CM := by
    rw [hAx]
    simp only [outerBoundsCm, WALL_SNAP_TOLERANCE_CM]
    rw [abs_le]
    intro hcontra
    obtain ⟨-, h2⟩ := hcontra
    linarith
  have hc2 : |(outerBoundsCm B g tx ty).left -
      (innerBoundsCm specRoomA specRoomA.xCm specRoomA.yCm).right| ≤ WALL_SNAP_TOLERANCE_CM := by
    rw [hAr]
    simp only [outerBoundsCm, WALL_SNAP_TOLERANCE_CM]
    rw [abs_le]
    constructor <;> linarith
  rw [if_neg hc1, if_pos hc2]
  dsimp only
  rw [hAr]
  simp only [outerBoundsCm]
  ring

/-- Witness for C2 (amended) at the concrete candidate x = 300: the
returned x is 310 and the outer left edge sits at exactly 300. -/
theorem C2_witness :
    (calculateSnap specRoomB [specRoomA, specRoomB] 300 1000 10).xCm -
      (getWallThicknessCm specRoomB 10).west = 300 :=
  C2_east_side_snap specRoomB 300 1000 10 (by decide)
    (by norm_num [getWallThicknessCm, specRoomB, wallAll10])
    (by norm_num [getWallThicknessCm, specRoomB, wallAll10])
    (by norm_num [specRoomB])
    (by norm_num [getWallThicknessCm, specRoomB, wallAll10])

/-- C8: deleteRoom removes the room with the given id and every wall
opening and placed object whose room reference equals that id, so the
resulting state contains no room, opening or placed object referencing
the deleted room. -/
theorem C8_deleteRoom_cascade (s : AppState) (rid : String) :
    (∀ r ∈ (deleteRoom s rid).rooms, r.id ≠ rid) ∧
    (∀ o ∈ (deleteRoom s rid).wallOpenings, o.roomId ≠ rid) ∧
    (∀ p ∈ (deleteRoom s rid).placedObjects, p.roomId ≠ rid) := by
  refine ⟨?_, ?_, ?_⟩ <;> intro x hx <;>
    simp only [deleteRoom, List.mem_filter] at hx <;>
      exact bne_iff_ne.mp hx.2

/-- Witness for C8: after deleting room B from the concrete state, the
surviving room A does not carry the deleted id. -/
theorem C8_witness : specRoomA.id ≠ "B" :=
  (C8_deleteRoom_cascade specAppState "B").1 specRoomA (by decide)

/-- The drag-in-progress pointer-move updates leave the history stacks
untouched and only replace the present state. -/
theorem foldl_dragMoveUpdate {α : Type} (h : HistoryState α) (moves : List α) :
    moves.foldl dragMoveUpdate h = { h with present := moves.getLastD h.present } := by
  induction moves generalizing h with
  | nil => rfl
  | cons m rest ih =>
    rw [List.foldl_cons]
    rw [ih]
    simp only [dragMoveUpdate, List.getLastD_cons]

/-- C9: during an active drag every pointer-move event updates only the
present state, leaving the past and future stacks unchanged, and the
pointer-up commit records exactly one history checkpoint (one new past
entry holding the final drag state) for the whole drag. -/
theorem C9_drag_single_checkpoint {α : Type} (h : HistoryState α) (moves : List α) :
    (moves.foldl dragMoveUpdate h).past = h.past ∧
    (moves.foldl dragMoveUpdate h).future = h.future ∧
    (moves.foldl dragMoveUpdate h).present = moves.getLastD h.present ∧
    (dragCommit (moves.foldl dragMoveUpdate h)).past = h.past ++ [moves.getLastD h.present] ∧
    (dragCommit (moves.foldl dragMoveUpdate h)).present = moves.getLastD h.present ∧
    (dragCommit (moves.foldl dragMoveUpdate h)).future = [] := by
  rw [foldl_dragMoveUpdate]
  exact ⟨rfl, rfl, rfl, rfl, rfl, rfl⟩

/-- Closed form of a nonempty sequence of recordHistory calls: every
previous present is pushed onto past in order, the present becomes the
last recorded state, and the future is cleared. -/
theorem foldl_recordHistory_cons {α : Type} (h : HistoryState α) (s : α) (σ : List α) :
    (s :: σ).foldl recordHistory h =
      { past := h.past ++ h.present :: (s :: σ).dropLast,
        present := (s :: σ).getLastD h.present,
        future := [] } := by
  induction σ generalizing h s with
  | nil => rfl
  | cons s2 σ' ih =>
    rw [show ((s :: s2 :: σ').foldl recordHistory h) = ((s2 :: σ').foldl recordHistory (recordHistory h s)) from rfl]
    rw [ih]
    simp only [recordHistory, List.getLastD_cons, List.dropLast_cons₂, List.append_assoc,
      List.singleton_append]

/-- One undo applied to a state whose past ends in a: pops a into the
present and pushes the old present onto the future. -/
theorem undo_concat {α : Type} (P : List α) (a x : α) (F : List α) :
    undo { past := P ++ [a], present := x, future := F } =
      { past := P, present := a, future := x :: F } := by
  simp [undo, List.getLast?_concat, List.dropLast_concat]

/-- Iterated undo pops the last length-many past entries, restoring the
present from just before them and stacking the popped states onto the
future with the most recent first. -/
theorem undo_iter {α : Type} (P : List α) (q : α) (Q : List α) (x : α) (F : List α) :
    (undo^[(q :: Q).length]) { past := P ++ q :: Q, present := x, future := F } =
      { past := P, present := q, future := Q ++ x :: F } := by
  induction Q using List.reverseRecOn generalizing x F with
  | nil =>
    show undo^[1] _ = _
    rw [Function.iterate_one]
    exact undo_concat P q x F
  | append_singleton Q' a ih =>
    have hlen : (q :: (Q' ++ [a])).length = (q :: Q').length + 1 := by simp
    rw [hlen, Function.iterate_succ_apply]
    have hlist : P ++ q :: (Q' ++ [a]) = (P ++ q :: Q') ++ [a] := by simp
    have hundo : undo { past := P ++ q :: (Q' ++ [a]), present := x, future := F } =
        { past := P ++ q :: Q', present := a, future := x :: F } := by
      rw [show ({ past := P ++ q :: (Q' ++ [a]), present := x, future := F } : HistoryState α) =
        { past := (P ++ q :: Q') ++ [a], present := x, future := F } from by rw [hlist]]
      exact undo_concat (P ++ q :: Q') a x F
    rw [hundo, ih]
    simp

/-- Iterated redo drains the whole future back into present and past. -/
theorem redo_iter {α : Type} (F : List α) : ∀ (P : List α) (x : α),
    (redo^[F.length]) { past := P, present := x, future := F } =
      { past := P ++ (x :: F).dropLast, present := F.getLastD x, future := [] } := by
  induction F with
  | nil => intro P x; simp
  | cons f F' ih =>
    intro P x
    rw [show (f :: F').length = F'.length + 1 from rfl, Function.iterate_succ_apply]
    rw [show redo { past := P, present := x, future := f :: F' } =
      { past := P ++ [x], present := f, future := F' } from rfl]
    rw [ih]
    simp only [List.getLastD_cons, List.dropLast_cons₂, List.append_assoc, List.singleton_append]

/-- Undoing as many times as there were recordHistory calls restores the
original present and stacks the recorded states on the future in redo
order. -/
theorem undo_iter_records {α : Type} (h : HistoryState α) (s : α) (σ' : List α) :
    (undo^[(s :: σ').length]) ((s :: σ').foldl recordHistory h) =
      { past := h.past, present := h.present, future := s :: σ' } := by
  rw [foldl_recordHistory_cons]
  have hl : (s :: σ').length = (h.present :: (s :: σ').dropLast).length := by
    simp
  have hfut : (s :: σ').dropLast ++ (s :: σ').getLastD h.present :: [] = s :: σ' := by
    have hne : (s :: σ') ≠ [] := List.cons_ne_nil s σ'
    have hgl : (s :: σ').getLastD h.present = (s :: σ').getLast hne := by
      rw [List.getLastD_eq_getLast?, List.getLast?_eq_getLast _ hne]
      rfl
    rw [hgl]
    exact List.dropLast_append_getLast hne
  calc (undo^[(s :: σ').length])
        { past := h.past ++ h.present :: (s :: σ').dropLast,
          present := (s :: σ').getLastD h.present, future := [] }
      = { past := h.past, present := h.present,
          future := (s :: σ').dropLast ++ (s :: σ').getLastD h.present :: [] } := by
        rw [hl]
        exact undo_iter h.past h.present ((s :: σ').dropLast) ((s :: σ').getLastD h.present) []
    _ = { past := h.past, present := h.present, future := s :: σ' } := by rw [hfut]

/-- C3: after N consecutive recordHistory calls (with arbitrary recorded
states) followed by N undo calls, present equals the state that was
present before the first recordHistory call; after that, N redo calls
restore the state passed to the last recordHistory call (for zero calls
both statements degenerate to the unchanged present). -/
theorem C3_history_invariant {α : Type} (h : HistoryState α) (σ : List α) :
    ((undo^[σ.length]) (σ.foldl recordHistory h)).present = h.present ∧
    ((redo^[σ.length]) ((undo^[σ.length]) (σ.foldl recordHistory h))).present =
      σ.getLastD h.present := by
  cases σ with
  | nil => exact ⟨rfl, rfl⟩
  | cons s σ' =>
    rw [undo_iter_records]
    refine ⟨rfl, ?_⟩
    rw [redo_iter]

section ObjectSnapLemmas

theorem placedObjectSnapStep_fst (objW objH tx ty : ℚ) (curId : Option String)
    (p : ObjAxisAcc × ObjAxisAcc) (other : PlacedObjectForSnap) :
    (placedObjectSnapStep objW objH tx ty curId p other).1 =
      List.foldl applyCand p.1 (objectXCands objW tx curId other) := by
  cases hcb : (curId == some other.id) with
  | true => simp [placedObjectSnapStep, objectXCands, hcb]
  | false =>
    simp only [placedObjectSnapStep, objectXCands, hcb, Bool.false_eq_true, if_false]
    rfl

theorem placedObjectSnapStep_snd (objW objH tx ty : ℚ) (curId : Option String)
    (p : ObjAxisAcc × ObjAxisAcc) (other : PlacedObjectForSnap) :
    (placedObjectSnapStep objW objH tx ty curId p other).2 =
      List.foldl applyCand p.2 (objectYCands objH ty curId other) := by
  cases hcb : (curId == some other.id) with
  | true => simp [placedObjectSnapStep, objectYCands, hcb]
  | false =>
    simp only [placedObjectSnapStep, objectYCands, hcb, Bool.false_eq_true, if_false]
    rfl

theorem foldl_placedObjectSnapStep_fst (objW objH tx ty : ℚ) (curId : Option String)
    (others : List PlacedObjectForSnap) :
    ∀ (p : ObjAxisAcc × ObjAxisAcc),
    (others.foldl (placedObjectSnapStep objW objH tx ty curId) p).1 =
      List.foldl applyCand p.1 (others.flatMap (objectXCands objW tx curId)) := by
  induction others with
  | nil => intro p; rfl
  | cons o rest ih =>
    intro p
    rw [List.foldl_cons, List.flatMap_cons, List.foldl_append,
      ← placedObjectSnapStep_fst objW objH tx ty curId p o]
    exact ih (placedObjectSnapStep objW objH tx ty curId p o)

theorem foldl_placedObjectSnapStep_snd (objW objH tx ty : ℚ) (curId : Option String)
    (others : List PlacedObjectForSnap) :
    ∀ (p : ObjAxisAcc × ObjAxisAcc),
    (others.foldl (placedObjectSnapStep objW objH tx ty curId) p).2 =
      List.foldl applyCand p.2 (others.flatMap (objectYCands objH ty curId)) := by
  induction others with
  | nil => intro p; rfl
  | cons o rest ih =>
    intro p
    rw [List.foldl_cons, List.flatMap_cons, List.foldl_append,
      ← placedObjectSnapStep_snd objW objH tx ty curId p o]
    exact ih (placedObjectSnapStep objW objH tx ty curId p o)

theorem calculatePlacedObjectSnap_eq (objW objH : ℚ) (room : Room) (tx ty toleranceCm : ℚ)
    (others : List PlacedObjectForSnap) (curId : Option String) :
    calculatePlacedObjectSnap objW objH room tx ty toleranceCm others curId =
      { xCm := (objSnapFoldX objW room tx toleranceCm others curId).pos
        yCm := (objSnapFoldY objH room ty toleranceCm others curId).pos
        snappedX := (objSnapFoldX objW room tx toleranceCm others curId).snapped
        snappedY := (objSnapFoldY objH room ty toleranceCm others curId).snapped
        xGuideCm := (objSnapFoldX objW room tx toleranceCm others curId).guide
        yGuideCm := (objSnapFoldY objH room ty toleranceCm others curId).guide } := by
  unfold calculatePlacedObjectSnap objSnapFoldX objSnapFoldY objectSnapXCandidates objectSnapYCandidates
  dsimp only
  simp only [List.foldl_cons]
  rw [foldl_placedObjectSnapStep_fst, foldl_placedObjectSnapStep_snd]
  rfl

theorem snapInv_step (t B : ℚ) (processed : List SnapCandidate) (c : SnapCandidate)
    (acc : ObjAxisAcc) (hc : c.tol < B) (h : SnapInv t B processed acc) :
    SnapInv t B (processed ++ [c]) (applyCand acc c) := by
  rcases h with ⟨hacc, hnone⟩ | ⟨c0, hc0mem, hc0ok, hpos, hsnap, hguide, hbest, hmin⟩
  · subst hacc
    by_cases hok : c.ok
    · have hcond : c.dist ≤ c.tol ∧
          c.dist < ({ pos := t, snapped := false, guide := none, best := B } : ObjAxisAcc).best :=
        ⟨hok, lt_of_le_of_lt hok hc⟩
      right
      refine ⟨c, List.mem_append_right _ (List.mem_singleton.mpr rfl), hok, ?_, ?_, ?_, ?_, ?_⟩
      · simp [applyCand, applySnapCandidate, hcond]
      · simp [applyCand, applySnapCandidate, hcond]
      · simp [applyCand, applySnapCandidate, hcond]
      · simp [applyCand, applySnapCandidate, hcond]
      · intro c2 hc2 hc2ok
        rcases List.mem_append.mp hc2 with hmem | hmem
        · exact absurd hc2ok (hnone c2 hmem)
        · rw [List.mem_singleton.mp hmem]
    · left
      constructor
      · simp only [applyCand, applySnapCandidate]
        rw [if_neg (fun hconj => hok hconj.1)]
      · intro c2 hc2
        rcases List.mem_append.mp hc2 with hmem | hmem
        · exact hnone c2 hmem
        · rw [List.mem_singleton.mp hmem]; exact hok
  · by_cases hcond : c.dist ≤ c.tol ∧ c.dist < acc.best
    · right
      refine ⟨c, List.mem_append_right _ (List.mem_singleton.mpr rfl), hcond.1, ?_, ?_, ?_, ?_, ?_⟩
      · simp [applyCand, applySnapCandidate, hcond]
      · simp [applyCand, applySnapCandidate, hcond]
      · simp [applyCand, applySnapCandidate, hcond]
      · simp [applyCand, applySnapCandidate, hcond]
      · intro c2 hc2 hc2ok
        rcases List.mem_append.mp hc2 with hmem | hmem
        · have hlt : c.dist < c0.dist := hbest ▸ hcond.2
          exact le_of_lt (lt_of_lt_of_le hlt (hmin c2 hmem hc2ok))
        · rw [List.mem_singleton.mp hmem]
    · right
      have hkeep : applyCand acc c = acc := by
        simp only [applyCand, applySnapCandidate]
        rw [if_neg hcond]
      refine ⟨c0, List.mem_append_left _ hc0mem, hc0ok, ?_, ?_, ?_, ?_, ?_⟩
      · rw [hkeep]; exact hpos
      · rw [hkeep]; exact hsnap
      · rw [hkeep]; exact hguide
      · rw [hkeep]; exact hbest
      · intro c2 hc2 hc2ok
        rcases List.mem_append.mp hc2 with hmem | hmem
        · exact hmin c2 hmem hc2ok
        · rw [List.mem_singleton.mp hmem] at hc2ok ⊢
          have hnlt : ¬ c.dist < acc.best := fun hlt => hcond ⟨hc2ok, hlt⟩
          rw [hbest] at hnlt
          exact le_of_not_lt hnlt

theorem snapInv_foldl (t B : ℚ) (cs : List SnapCandidate) :
    ∀ (processed : List SnapCandidate) (acc : ObjAxisAcc),
    (∀ c ∈ cs, c.tol < B) → SnapInv t B processed acc →
    SnapInv t B (processed ++ cs) (List.foldl applyCand acc cs) := by
  induction cs with
  | nil => intro processed acc _ h; simpa using h
  | cons c cs2 ih =>
    intro processed acc htol h
    rw [List.foldl_cons]
    have h2 := snapInv_step t B processed c acc (htol c (List.mem_cons_self c cs2)) h
    have h3 := ih (processed ++ [c]) (applyCand acc c)
      (fun c2 hc2 => htol c2 (List.mem_cons_of_mem c hc2)) h2
    rw [List.append_assoc] at h3
    exact h3

theorem objectSnapXCandidates_tol (objW : ℚ) (room : Room) (tx toleranceCm : ℚ)
    (others : List PlacedObjectForSnap) (curId : Option String) :
    ∀ c ∈ objectSnapXCandidates objW room tx toleranceCm others curId,
      c.tol = toleranceCm ∨ c.tol = OBJECT_TO_OBJECT_SNAP_TOLERANCE_CM := by
  intro c hc
  simp only [objectSnapXCandidates, List.mem_cons] at hc
  rcases hc with h | h | h
  · left; rw [h]
  · left; rw [h]
  · right
    rcases List.mem_flatMap.mp h with ⟨o, -, hmem⟩
    unfold objectXCands at hmem
    by_cases hcb : (curId == some o.id) = true
    · rw [if_pos hcb] at hmem
      cases hmem
    · rw [if_neg hcb] at hmem
      simp only [List.mem_cons, List.mem_singleton] at hmem
      rcases hmem with h | h | h | h | h
      all_goals first
      | (rw [h])
      | cases h

theorem objectSnapYCandidates_tol (objH : ℚ) (room : Room) (ty toleranceCm : ℚ)
    (others : List PlacedObjectForSnap) (curId : Option String) :
    ∀ c ∈ objectSnapYCandidates objH room ty toleranceCm others curId,
      c.tol = toleranceCm ∨ c.tol = OBJECT_TO_OBJECT_SNAP_TOLERANCE_CM := by
  intro c hc
  simp only [objectSnapYCandidates, List.mem_cons] at hc
  rcases hc with h | h | h
  · left; rw [h]
  · left; rw [h]
  · right
    rcases List.mem_flatMap.mp h with ⟨o, -, hmem⟩
    unfold objectYCands at hmem
    by_cases hcb : (curId == some o.id) = true
    · rw [if_pos hcb] at hmem
      cases hmem
    · rw [if_neg hcb] at hmem
      simp only [List.mem_cons, List.mem_singleton] at hmem
      rcases hmem with h | h | h | h | h
      all_goals first
      | (rw [h])
      | cases h

theorem objSnapFoldX_min (objW : ℚ) (room : Room) (tx : ℚ)
    (others : List PlacedObjectForSnap) (curId : Option String)
    (hex : ∃ c ∈ objectSnapXCandidates objW room tx OBJECT_SNAP_TOLERANCE_CM others curId, c.ok) :
    (objSnapFoldX objW room tx OBJECT_SNAP_TOLERANCE_CM others curId).snapped = true ∧
    ∃ c ∈ objectSnapXCandidates objW room tx OBJECT_SNAP_TOLERANCE_CM others curId,
      c.ok ∧ (objSnapFoldX objW room tx OBJECT_SNAP_TOLERANCE_CM others curId).pos = c.pos ∧
      ∀ c2 ∈ objectSnapXCandidates objW room tx OBJECT_SNAP_TOLERANCE_CM others curId,
        c2.ok → c.dist ≤ c2.dist := by
  have htol : ∀ c ∈ objectSnapXCandidates objW room tx OBJECT_SNAP_TOLERANCE_CM others curId,
      c.tol < OBJECT_SNAP_TOLERANCE_CM + 1 := by
    intro c hc
    rcases objectSnapXCandidates_tol objW room tx OBJECT_SNAP_TOLERANCE_CM others curId c hc
      with h | h <;> rw [h] <;>
        norm_num [OBJECT_SNAP_TOLERANCE_CM, OBJECT_TO_OBJECT_SNAP_TOLERANCE_CM]
  have hinv := snapInv_foldl tx (OBJECT_SNAP_TOLERANCE_CM + 1)
    (objectSnapXCandidates objW room tx OBJECT_SNAP_TOLERANCE_CM others curId) []
    { pos := tx, snapped := false, guide := none, best := OBJECT_SNAP_TOLERANCE_CM + 1 }
    htol (Or.inl ⟨rfl, by simp⟩)
  rw [List.nil_append] at hinv
  unfold objSnapFoldX
  rcases hinv with ⟨-, hnone⟩ | ⟨c, hcmem, hcok, hpos, hsnap, -, -, hmin⟩
  · rcases hex with ⟨c, hcmem, hcok⟩
    exact absurd hcok (hnone c hcmem)
  · exact ⟨hsnap, c, hcmem, hcok, hpos, hmin⟩

theorem objSnapFoldY_min (objH : ℚ) (room : Room) (ty : ℚ)
    (others : List PlacedObjectForSnap) (curId : Option String)
    (hex : ∃ c ∈ objectSnapYCandidates objH room ty OBJECT_SNAP_TOLERANCE_CM others curId, c.ok) :
    (objSnapFoldY objH room ty OBJECT_SNAP_TOLERANCE_CM others curId).snapped = true ∧
    ∃ c ∈ objectSnapYCandidates objH room ty OBJECT_SNAP_TOLERANCE_CM others curId,
      c.ok ∧ (objSnapFoldY objH room ty OBJECT_SNAP_TOLERANCE_CM others curId).pos = c.pos ∧
      ∀ c2 ∈ objectSnapYCandidates objH room ty OBJECT_SNAP_TOLERANCE_CM others curId,
        c2.ok → c.dist ≤ c2.dist := by
  have htol : ∀ c ∈ objectSnapYCandidates objH room ty OBJECT_SNAP_TOLERANCE_CM others curId,
      c.tol < OBJECT_SNAP_TOLERANCE_CM + 1 := by
    intro c hc
    rcases objectSnapYCandidates_tol objH room ty OBJECT_SNAP_TOLERANCE_CM others curId c hc
      with h | h <;> rw [h] <;>
        norm_num [OBJECT_SNAP_TOLERANCE_CM, OBJECT_TO_OBJECT_SNAP_TOLERANCE_CM]
  have hinv := snapInv_foldl ty (OBJECT_SNAP_TOLERANCE_CM + 1)
    (objectSnapYCandidates objH room ty OBJECT_SNAP_TOLERANCE_CM others curId) []
    { pos := ty, snapped := false, guide := none, best := OBJECT_SNAP_TOLERANCE_CM + 1 }
    htol (Or.inl ⟨rfl, by simp⟩)
  rw [List.nil_append] at hinv
  unfold objSnapFoldY
  rcases hinv with ⟨-, hnone⟩ | ⟨c, hcmem, hcok, hpos, hsnap, -, -, hmin⟩
  · rcases hex with ⟨c, hcmem, hcok⟩
    exact absurd hcok (hnone c hcmem)
  · exact ⟨hsnap, c, hcmem, hcok, hpos, hmin⟩

end ObjectSnapLemmas

/-- C4: in calculatePlacedObjectSnap (at its documented wall tolerance of
25 cm), on each axis, whenever any candidate lies within its applicable
tolerance the axis snaps, and the returned position is that of a
within-tolerance candidate whose distance is least among all
within-tolerance candidates; in particular, of two candidates at
distances d1 less than d2 the d2 candidate is never returned, and the
statement holds for every ordering of the examined walls and objects
since the object list is universally quantified. -/
theorem C4_object_snap_best_distance (objW objH : ℚ) (room : Room) (tx ty : ℚ)
    (others : List PlacedObjectForSnap) (curId : Option String) :
    ((∃ c ∈ objectSnapXCandidates objW room tx OBJECT_SNAP_TOLERANCE_CM others curId, c.ok) →
      (calculatePlacedObjectSnap objW objH room tx ty OBJECT_SNAP_TOLERANCE_CM others curId).snappedX = true ∧
      ∃ c ∈ objectSnapXCandidates objW room tx OBJECT_SNAP_TOLERANCE_CM others curId,
        c.ok ∧
        (calculatePlacedObjectSnap objW objH room tx ty OBJECT_SNAP_TOLERANCE_CM others curId).xCm = c.pos ∧
        ∀ c2 ∈ objectSnapXCandidates objW room tx OBJECT_SNAP_TOLERANCE_CM others curId,
          c2.ok → c.dist ≤ c2.dist) ∧
    ((∃ c ∈ objectSnapYCandidates objH room ty OBJECT_SNAP_TOLERANCE_CM others curId, c.ok) →
      (calculatePlacedObjectSnap objW objH room tx ty OBJECT_SNAP_TOLERANCE_CM others curId).snappedY = true ∧
      ∃ c ∈ objectSnapYCandidates objH room ty OBJECT_SNAP_TOLERANCE_CM others curId,
        c.ok ∧
        (calculatePlacedObjectSnap objW objH room tx ty OBJECT_SNAP_TOLERANCE_CM others curId).yCm = c.pos ∧
        ∀ c2 ∈ objectSnapYCandidates objH room ty OBJECT_SNAP_TOLERANCE_CM others curId,
          c2.ok → c.dist ≤ c2.dist) := by
  constructor
  · intro hex
    rw [calculatePlacedObjectSnap_eq]
    exact objSnapFoldX_min objW room tx others curId hex
  · intro hex
    rw [calculatePlacedObjectSnap_eq]
    exact objSnapFoldY_min objH room ty others curId hex

/-- Witness for C4: an object near the left wall of room A snaps on the X
axis. -/
theorem C4_witness :
    (calculatePlacedObjectSnap 10 10 specRoomA 3 50 OBJECT_SNAP_TOLERANCE_CM [] none).snappedX = true :=
  ((C4_object_snap_best_distance 10 10 specRoomA 3 50 [] none).1
    ⟨{ tol := OBJECT_SNAP_TOLERANCE_CM, dist := |3 - specRoomA.xCm|, pos := specRoomA.xCm,
        guide := specRoomA.xCm },
      List.Mem.head _,
      by norm_num [SnapCandidate.ok, specRoomA, OBJECT_SNAP_TOLERANCE_CM]⟩).1

end BasedPlanning
